import Mathlib

/-!
Verification of the AccQsure python-sdk request core and auth layer.

The definitions below are a shallow embedding of `src/accqsure/accqsure.py`
(`_poll_task`, the query-parameter handling shared by `_query` and
`_query_stream`, and the `_query_stream` accumulation loop) and, where the
authentication module is not part of the sources, a model written from the
specification.  Python numbers are modelled as rationals, Python `None` as
`Option.none`, raised exceptions as explicit outcome constructors, and the
side effects relevant to the claims (sleeping, HTTP requests, cache file
reads and writes, the token exchange) as explicit action traces.
-/

namespace AccQsure

/-- Status strings carried by a task resource; all strings other than
`"finished"`, `"failed"` and `"canceled"` are non-terminal. -/
inductive TaskStatus
  | finished
  | failed
  | canceled
  | other (s : String)
deriving DecidableEq

/-- The JSON body returned by `GET /task/{id}`, restricted to the fields
`_poll_task` reads; `result` is an opaque payload. -/
structure TaskResp where
  status : TaskStatus
  result : String
deriving DecidableEq

/-- Observable effects of one `_poll_task` run: `asyncio.sleep(interval)`
and the HTTP `GET` issued through `_query`. -/
inductive PollAction
  | sleep (interval : ℚ)
  | httpGet (path : String)
deriving DecidableEq

/-- How `_poll_task` terminates: normal return of the `result` field,
`TaskError(result)`, `AccQsureException` naming the task id on budget
exhaustion, or `SpecificationError(param, msg)` from timeout validation. -/
inductive PollOutcome
  | ok (result : String)
  | taskError (result : String)
  | timeoutError (taskId : String)
  | specificationError (param : String)
deriving DecidableEq

/-- `MAX_TIMEOUT = 24 * 60 * 60` from `_poll_task`. -/
def MAX_TIMEOUT : ℚ := 24 * 60 * 60

/-- `POLL_INTERVAL = max(min(timeout / 60, POLL_INTERVAL_MAX), POLL_INTERVAL_MIN)`
with the source constants `POLL_INTERVAL_MIN = 5`, `POLL_INTERVAL_MAX = 60`. -/
def POLL_INTERVAL (timeout : ℚ) : ℚ :=
  max (min (timeout / 60) 60) 5

/-- `retry_count = math.ceil(timeout / POLL_INTERVAL)` from `_poll_task`. -/
def retry_count (timeout : ℚ) : ℤ :=
  ⌈timeout / POLL_INTERVAL timeout⌉

/-- The `while count < retry_count` loop of `_poll_task`: `i` is the index of
the next poll (`responses i` is the body of the `i`-th `GET /task/{id}`),
the second argument is the number of remaining iterations.  Each iteration
first sleeps, then issues the `GET`, then branches on `status`. -/
def pollLoop (taskId : String) (interval : ℚ) (responses : ℕ → TaskResp) :
    ℕ → ℕ → List PollAction × PollOutcome
  | _, 0 => ([], .timeoutError taskId)
  | i, Nat.succ n =>
    let r := responses i
    let acts : List PollAction := [.sleep interval, .httpGet (("/task/") ++ taskId)]
    match r.status with
    | .finished => (acts, .ok r.result)
    | .failed => (acts, .taskError r.result)
    | .canceled => (acts, .taskError r.result)
    | .other _ =>
      let rest := pollLoop taskId interval responses (i + 1) n
      (acts ++ rest.1, rest.2)

/-- `_poll_task(task_id, timeout)`: validates the timeout, computes interval
and retry count, then runs the polling loop.  The returned list is the trace
of side effects in order; an empty trace on the validation branch records
that the error is raised before any I/O. -/
def poll_task (taskId : String) (timeout : ℚ) (responses : ℕ → TaskResp) :
    List PollAction × PollOutcome :=
  if timeout > MAX_TIMEOUT then
    ([], .specificationError ("timeout"))
  else
    pollLoop taskId (POLL_INTERVAL timeout) responses 0 (retry_count timeout).toNat

/-- A status on which the loop stops (returns or raises). -/
def TaskStatus.isTerminal : TaskStatus → Bool
  | .finished => true
  | .failed => true
  | .canceled => true
  | .other _ => false

theorem pollLoop_never_specError (taskId : String) (interval : ℚ)
    (responses : ℕ → TaskResp) :
    ∀ n i p, (pollLoop taskId interval responses i n).2 ≠ .specificationError p := by
  intro n
  induction n with
  | zero => intro i p h; simp [pollLoop] at h
  | succ n ih =>
    intro i p h
    simp only [pollLoop] at h
    rcases hs : (responses i).status with _ | _ | _ | s
    · simp [hs] at h
    · simp [hs] at h
    · simp [hs] at h
    · simp [hs] at h
      exact ih (i + 1) p h

theorem pollLoop_trace (taskId : String) (interval : ℚ)
    (responses : ℕ → TaskResp) :
    ∀ n i, ∃ k, k ≤ n ∧
      (pollLoop taskId interval responses i n).1 =
        (List.replicate k
          [PollAction.sleep interval, PollAction.httpGet (("/task/") ++ taskId)]).flatten ∧
      ((∀ j, (responses j).status.isTerminal = false) → k = n) := by
  intro n
  induction n with
  | zero =>
    intro i
    exact ⟨0, le_rfl, by simp [pollLoop], fun _ => rfl⟩
  | succ n ih =>
    intro i
    rcases ih (i + 1) with ⟨k, hk, htr, hall⟩
    rcases hs : (responses i).status with _ | _ | _ | s
    · exact ⟨1, by omega, by simp [pollLoop, hs], fun h => by
        have := h i; rw [hs] at this; simp [TaskStatus.isTerminal] at this⟩
    · exact ⟨1, by omega, by simp [pollLoop, hs], fun h => by
        have := h i; rw [hs] at this; simp [TaskStatus.isTerminal] at this⟩
    · exact ⟨1, by omega, by simp [pollLoop, hs], fun h => by
        have := h i; rw [hs] at this; simp [TaskStatus.isTerminal] at this⟩
    · refine ⟨k + 1, by omega, ?_, fun h => by rw [hall h]⟩
      simp [pollLoop, hs, List.replicate_succ, htr]

theorem pollLoop_all_nonterminal (taskId : String) (interval : ℚ)
    (responses : ℕ → TaskResp) :
    ∀ n i, (∀ m, m < n → (responses (i + m)).status.isTerminal = false) →
      pollLoop taskId interval responses i n =
        ((List.replicate n
          [PollAction.sleep interval, PollAction.httpGet (("/task/") ++ taskId)]).flatten,
         .timeoutError taskId) := by
  intro n
  induction n with
  | zero => intro i _; simp [pollLoop]
  | succ n ih =>
    intro i h
    have h0 : (responses i).status.isTerminal = false := by
      have := h 0 (by omega); simpa using this
    rcases hs : (responses i).status with _ | _ | _ | s <;>
      rw [hs] at h0 <;> simp [TaskStatus.isTerminal] at h0
    have hrest := ih (i + 1) (fun m hm => by
      have := h (m + 1) (by omega)
      rw [show i + 1 + m = i + (m + 1) by omega]
      exact this)
    simp [pollLoop, hs, hrest, List.replicate_succ]

theorem pollLoop_hits_terminal (taskId : String) (interval : ℚ)
    (responses : ℕ → TaskResp) :
    ∀ j n i, j < n →
      (∀ m, m < j → (responses (i + m)).status.isTerminal = false) →
      (responses (i + j)).status.isTerminal = true →
      pollLoop taskId interval responses i n =
        ((List.replicate (j + 1)
          [PollAction.sleep interval, PollAction.httpGet (("/task/") ++ taskId)]).flatten,
         if (responses (i + j)).status = .finished then .ok (responses (i + j)).result
         else .taskError (responses (i + j)).result) := by
  intro j
  induction j with
  | zero =>
    intro n i hn _ hterm
    rcases n with _ | n
    · omega
    rcases hs : (responses i).status with _ | _ | _ | s <;>
      simp only [Nat.add_zero] at hterm hs ⊢ <;> rw [hs] at hterm ⊢ <;>
      simp [pollLoop, hs, TaskStatus.isTerminal] at hterm ⊢
  | succ j ih =>
    intro n i hn hbefore hterm
    rcases n with _ | n
    · omega
    have h0 : (responses i).status.isTerminal = false := by
      have := hbefore 0 (by omega); simpa using this
    rcases hs : (responses i).status with _ | _ | _ | s <;>
      rw [hs] at h0 <;> simp [TaskStatus.isTerminal] at h0
    have hrec := ih n (i + 1) (by omega)
      (fun m hm => by
        have := hbefore (m + 1) (by omega)
        rw [show i + 1 + m = i + (m + 1) by omega]
        exact this)
      (by rw [show i + 1 + j = i + (j + 1) by omega]; exact hterm)
    rw [show i + 1 + j = i + (j + 1) by omega] at hrec
    simp [pollLoop, hs, hrec, List.replicate_succ]

/-- C4: for every timeout greater than 86400 seconds, `_poll_task` raises
`SpecificationError("timeout", ...)` with an empty effect trace, i.e. before
any sleep or HTTP request; for every timeout at most 86400 the validation
error is never raised. -/
theorem poll_task_timeout_validation (taskId : String) (timeout : ℚ)
    (responses : ℕ → TaskResp) :
    (timeout > 86400 →
      poll_task taskId timeout responses = ([], .specificationError ("timeout"))) ∧
    (timeout ≤ 86400 →
      ∀ p, (poll_task taskId timeout responses).2 ≠ .specificationError p) := by
  constructor
  · intro h
    have : timeout > MAX_TIMEOUT := by rw [MAX_TIMEOUT]; norm_num; exact h
    simp [poll_task, this]
  · intro h p
    have : ¬ timeout > MAX_TIMEOUT := by rw [MAX_TIMEOUT]; norm_num; exact h
    simp only [poll_task, this, if_false]
    exact pollLoop_never_specError taskId (POLL_INTERVAL timeout) responses _ 0 p

/-- C4 witness: `timeout = 86401` raises the validation error with no I/O,
and `timeout = 86400` does not raise it. -/
theorem poll_task_timeout_validation_witness :
    ((86401 : ℚ) > 86400 ∧
      poll_task ("t1") 86401 (fun _ => ⟨.other ("queued"), ("r")⟩) =
        ([], .specificationError ("timeout"))) ∧
    ((86400 : ℚ) ≤ 86400 ∧
      (poll_task ("t1") 86400 (fun _ => ⟨.finished, ("r")⟩)).2 ≠
        .specificationError ("timeout")) :=
  ⟨⟨by norm_num,
    (poll_task_timeout_validation ("t1") 86401 (fun _ => ⟨.other ("queued"), ("r")⟩)).1
      (by norm_num)⟩,
   ⟨by norm_num,
    (poll_task_timeout_validation ("t1") 86400 (fun _ => ⟨.finished, ("r")⟩)).2
      (by norm_num) ("timeout")⟩⟩

/-- C3: for every timeout `_poll_task` accepts (at most 86400 seconds), the
poll interval equals `max (min (timeout / 60) 60) 5`, the iteration budget
equals `⌈timeout / interval⌉`, and the effect trace consists of `k ≤ budget`
blocks each of one sleep of that interval followed by one poll request — the
loop sleeps before every poll attempt, the first included — with `k` equal to
the full budget whenever no polled status is terminal. -/
theorem poll_task_schedule (taskId : String) (timeout : ℚ)
    (responses : ℕ → TaskResp) (h : timeout ≤ 86400) :
    POLL_INTERVAL timeout = max (min (timeout / 60) 60) 5 ∧
    retry_count timeout = ⌈timeout / max (min (timeout / 60) 60) 5⌉ ∧
    ∃ k, k ≤ (retry_count timeout).toNat ∧
      (poll_task taskId timeout responses).1 =
        (List.replicate k
          [PollAction.sleep (max (min (timeout / 60) 60) 5),
           PollAction.httpGet (("/task/") ++ taskId)]).flatten ∧
      ((∀ j, (responses j).status.isTerminal = false) →
        k = (retry_count timeout).toNat) := by
  refine ⟨rfl, rfl, ?_⟩
  have hng : ¬ timeout > MAX_TIMEOUT := by rw [MAX_TIMEOUT]; norm_num; exact h
  simp only [poll_task, hng, if_false]
  simpa [POLL_INTERVAL] using
    pollLoop_trace taskId (POLL_INTERVAL timeout) responses (retry_count timeout).toNat 0

/-- C3 witness: `timeout = 10` gives interval 5 and budget `⌈10 / 5⌉ = 2`;
with every status non-terminal the trace is sleep, poll, sleep, poll. -/
theorem poll_task_schedule_witness :
    ((10 : ℚ) ≤ 86400) ∧
    (POLL_INTERVAL 10 = max (min ((10 : ℚ) / 60) 60) 5 ∧
     retry_count 10 = ⌈(10 : ℚ) / max (min ((10 : ℚ) / 60) 60) 5⌉ ∧
     ∃ k, k ≤ (retry_count 10).toNat ∧
       (poll_task ("t2") 10 (fun _ => ⟨.other ("running"), ("r")⟩)).1 =
         (List.replicate k
           [PollAction.sleep (max (min ((10 : ℚ) / 60) 60) 5),
            PollAction.httpGet (("/task/") ++ ("t2"))]).flatten ∧
       ((∀ j, ((fun _ : ℕ => (⟨.other ("running"), ("r")⟩ : TaskResp)) j).status.isTerminal
          = false) → k = (retry_count 10).toNat)) :=
  ⟨by norm_num,
   poll_task_schedule ("t2") 10 (fun _ => ⟨.other ("running"), ("r")⟩) (by norm_num)⟩

/-- C5: under the iteration budget of `_poll_task`, the first `finished`
response makes the call return that response's `result`; the first `failed`
or `canceled` response raises `TaskError` with that `result`, in both cases
with no further polling after that attempt; and when every response within
the budget is non-terminal the call raises the timeout error naming the
task id. -/
theorem poll_task_outcomes (taskId : String) (timeout : ℚ)
    (responses : ℕ → TaskResp) (h : timeout ≤ 86400) :
    (∀ j, j < (retry_count timeout).toNat →
      (∀ m, m < j → (responses m).status.isTerminal = false) →
      ((responses j).status = .finished →
        poll_task taskId timeout responses =
          ((List.replicate (j + 1)
            [PollAction.sleep (POLL_INTERVAL timeout),
             PollAction.httpGet (("/task/") ++ taskId)]).flatten,
           .ok (responses j).result)) ∧
      (((responses j).status = .failed ∨ (responses j).status = .canceled) →
        poll_task taskId timeout responses =
          ((List.replicate (j + 1)
            [PollAction.sleep (POLL_INTERVAL timeout),
             PollAction.httpGet (("/task/") ++ taskId)]).flatten,
           .taskError (responses j).result))) ∧
    ((∀ m, m < (retry_count timeout).toNat →
        (responses m).status.isTerminal = false) →
      (poll_task taskId timeout responses).2 = .timeoutError taskId) := by
  have hng : ¬ timeout > MAX_TIMEOUT := by rw [MAX_TIMEOUT]; norm_num; exact h
  constructor
  · intro j hj hbefore
    constructor
    · intro hfin
      have hterm : (responses (0 + j)).status.isTerminal = true := by
        simp [hfin, TaskStatus.isTerminal]
      have hrun := pollLoop_hits_terminal taskId (POLL_INTERVAL timeout) responses
        j (retry_count timeout).toNat 0 hj
        (fun m hm => by simpa using hbefore m hm) hterm
      simp only [Nat.zero_add] at hrun
      simp [poll_task, hng, hrun, hfin]
    · intro hfail
      have hterm : (responses (0 + j)).status.isTerminal = true := by
        rcases hfail with hf | hf <;> simp [hf, TaskStatus.isTerminal]
      have hnotfin : ¬ (responses j).status = .finished := by
        rcases hfail with hf | hf <;> simp [hf]
      have hrun := pollLoop_hits_terminal taskId (POLL_INTERVAL timeout) responses
        j (retry_count timeout).toNat 0 hj
        (fun m hm => by simpa using hbefore m hm) hterm
      simp only [Nat.zero_add] at hrun
      simp [poll_task, hng, hrun, hnotfin]
  · intro hall
    have hrun := pollLoop_all_nonterminal taskId (POLL_INTERVAL timeout) responses
      (retry_count timeout).toNat 0 (fun m hm => by simpa using hall m hm)
    simp [poll_task, hng, hrun]

/-- C5 witness: with `timeout = 10` a first-poll `finished` response returns
its result after exactly one sleep and one poll. -/
theorem poll_task_outcomes_witness :
    ((10 : ℚ) ≤ 86400 ∧ 0 < (retry_count 10).toNat) ∧
    poll_task ("t5") 10 (fun _ => ⟨.finished, ("done")⟩) =
      ((List.replicate (0 + 1)
        [PollAction.sleep (POLL_INTERVAL 10),
         PollAction.httpGet (("/task/") ++ ("t5"))]).flatten,
       .ok ("done")) := by
  have hb : (0 : ℕ) < (retry_count 10).toNat := by
    have : retry_count 10 = 2 := by
      rw [retry_count, POLL_INTERVAL]
      norm_num [min_def, max_def]
    rw [this]
    norm_num
  exact ⟨⟨by norm_num, hb⟩,
    ((poll_task_outcomes ("t5") 10 (fun _ => ⟨.finished, ("done")⟩)
        (by norm_num)).1 0 hb (fun m hm => absurd hm (by omega))).1 rfl⟩

/-- C9: for every timeout at most 0, the interval clamps to the floor 5, the
iteration count `⌈timeout / 5⌉` is at most 0, and `_poll_task` raises the
timeout error naming the task id with an empty effect trace — no sleep and
no HTTP request. -/
theorem poll_task_nonpositive_timeout (taskId : String) (timeout : ℚ)
    (responses : ℕ → TaskResp) (h : timeout ≤ 0) :
    POLL_INTERVAL timeout = 5 ∧
    retry_count timeout = ⌈timeout / 5⌉ ∧
    retry_count timeout ≤ 0 ∧
    poll_task taskId timeout responses = ([], .timeoutError taskId) := by
  have h60 : timeout / 60 ≤ 0 := div_nonpos_iff.mpr (Or.inr ⟨h, by norm_num⟩)
  have hI : POLL_INTERVAL timeout = 5 := by
    rw [POLL_INTERVAL, min_eq_left (le_trans h60 (by norm_num)),
      max_eq_right (le_trans h60 (by norm_num))]
  have hrc : retry_count timeout = ⌈timeout / 5⌉ := by rw [retry_count, hI]
  have h5 : timeout / 5 ≤ 0 := div_nonpos_iff.mpr (Or.inr ⟨h, by norm_num⟩)
  have hle : retry_count timeout ≤ 0 := by
    rw [hrc]
    exact Int.ceil_le.mpr (by exact_mod_cast h5)
  have hzero : (retry_count timeout).toNat = 0 := Int.toNat_of_nonpos hle
  have hng : ¬ timeout > MAX_TIMEOUT := by
    rw [MAX_TIMEOUT]; norm_num; linarith
  refine ⟨hI, hrc, hle, ?_⟩
  simp [poll_task, hng, hzero, pollLoop]

/-- C9 witness: `timeout = 0` raises the timeout error immediately with no
sleep and no request. -/
theorem poll_task_nonpositive_timeout_witness :
    ((0 : ℚ) ≤ 0) ∧
    (POLL_INTERVAL 0 = 5 ∧
     retry_count 0 = ⌈(0 : ℚ) / 5⌉ ∧
     retry_count 0 ≤ 0 ∧
     poll_task ("t9") 0 (fun _ => ⟨.finished, ("r")⟩) = ([], .timeoutError ("t9"))) :=
  ⟨le_rfl, poll_task_nonpositive_timeout ("t9") 0 (fun _ => ⟨.finished, ("r")⟩) le_rfl⟩

/-- A Python value appearing in a query-parameter dict: booleans, `None`,
strings and integers cover what the SDK passes. -/
inductive PyVal
  | vbool (b : Bool)
  | vnone
  | vstr (s : String)
  | vint (n : ℤ)
deriving DecidableEq

/-- Python `str(v)` on the values above (`str(True) = "True"`). -/
def pyStr : PyVal → String
  | .vbool true => ("True")
  | .vbool false => ("False")
  | .vnone => ("None")
  | .vstr s => s
  | .vint n => toString n

/-- Python `str.lower()` on the ASCII strings produced by `str(bool)`,
written at the character level so it evaluates in the kernel. -/
def pyLower (s : String) : String :=
  ⟨s.data.map Char.toLower⟩

/-- The value transformation in the dict comprehension of `_query` and
`_query_stream`: `str(v).lower() if isinstance(v, bool) else v`. -/
def encodeParamValue : PyVal → PyVal
  | .vbool b => .vstr (pyLower (pyStr (.vbool b)))
  | v => v

/-- `params = {k: (str(v).lower() if isinstance(v, bool) else v)
for k, v in params.items() if v is not None}` — entries whose value is
`None` are dropped, booleans become the strings `"true"` / `"false"`,
all other entries pass through unchanged.  A Python dict is modelled as
its ordered item list. -/
def encodeParams (ps : List (String × PyVal)) : List (String × PyVal) :=
  (ps.filter (fun kv => decide (kv.2 ≠ PyVal.vnone))).map
    (fun kv => (kv.1, encodeParamValue kv.2))

/-- The `params` argument of `_query` / `_query_stream` before validation:
`None`, a dict, or a non-dict value such as a list or a string. -/
inductive Params
  | pNone
  | pDict (items : List (String × PyVal))
  | pList (items : List PyVal)
  | pStr (s : String)
deriving DecidableEq

/-- Python truthiness of a `params` argument (`if params:`). -/
def Params.truthy : Params → Bool
  | .pNone => false
  | .pDict items => !items.isEmpty
  | .pList items => !items.isEmpty
  | .pStr s => !(s == (""))

/-- Result of the parameter-handling prologue shared by `_query` (lines
88–97) and `_query_stream` (lines 177–186): either the
`AccQsureException` raised before the request is issued, or the `params`
value with which `session.request` is then called. -/
inductive QueryParamsResult
  | exn (msg : String)
  | send (params : Params)
deriving DecidableEq

/-- `if params: (if not isinstance(params, dict): raise ...); params = {...}`.
Falsy `params` (None, empty dict, empty list, empty string) skip the whole
block and are passed through unchanged. -/
def prepare_query_params (params : Params) : QueryParamsResult :=
  if params.truthy then
    match params with
    | .pDict items => .send (.pDict (encodeParams items))
    | _ => .exn ("Query parameters must be a valid dictionary")
  else .send params

/-- C6: for every non-empty parameter dict (with the unique keys a Python
dict guarantees), the request is sent with the encoded dict in which every
boolean has become the literal string `"true"` or `"false"`, every
`None`-valued key has been dropped, no boolean or `None` value survives,
and non-boolean non-`None` entries are unchanged. -/
theorem query_params_encoding (items : List (String × PyVal))
    (hne : items ≠ []) (hkeys : (items.map Prod.fst).Nodup) :
    prepare_query_params (.pDict items) = .send (.pDict (encodeParams items)) ∧
    (∀ k b, (k, PyVal.vbool b) ∈ items →
      (k, PyVal.vstr (if b then ("true") else ("false"))) ∈ encodeParams items) ∧
    (∀ k, (k, PyVal.vnone) ∈ items → ∀ v, (k, v) ∉ encodeParams items) ∧
    (∀ kv, kv ∈ encodeParams items →
      kv.2 ≠ PyVal.vnone ∧ ∀ b, kv.2 ≠ PyVal.vbool b) ∧
    (∀ k s, (k, PyVal.vstr s) ∈ items → (k, PyVal.vstr s) ∈ encodeParams items) ∧
    (∀ k n, (k, PyVal.vint n) ∈ items → (k, PyVal.vint n) ∈ encodeParams items) := by
  refine ⟨?_, ?_, ?_, ?_, ?_, ?_⟩
  · have htr : Params.truthy (.pDict items) = true := by
      cases items with
      | nil => cases hne rfl
      | cons a l => rfl
    simp [prepare_query_params, htr]
  · intro k b hmem
    have hkeep : (k, PyVal.vbool b) ∈
        items.filter (fun kv => decide (kv.2 ≠ PyVal.vnone)) := by
      simp [List.mem_filter, hmem]
    have hmap := List.mem_map_of_mem (fun kv => (kv.1, encodeParamValue kv.2)) hkeep
    have hval : encodeParamValue (PyVal.vbool b) =
        PyVal.vstr (if b then ("true") else ("false")) := by
      rcases b <;> decide
    rw [encodeParams]
    simpa [hval] using hmap
  · intro k hmem v hv
    rcases List.mem_map.mp hv with ⟨kv, hkv, hEq⟩
    have hkv2 : kv ∈ items := List.mem_of_mem_filter hkv
    have hk : kv.1 = k := by
      have := congrArg Prod.fst hEq; simpa using this
    have hkveq : kv = (k, PyVal.vnone) :=
      List.inj_on_of_nodup_map hkeys hkv2 hmem (by simpa using hk)
    rw [hkveq] at hkv
    simp [List.mem_filter] at hkv
  · intro kv hkv
    rcases List.mem_map.mp hkv with ⟨kw, hkw, hEq⟩
    have hnn : kw.2 ≠ PyVal.vnone := by
      have := (List.mem_filter.mp hkw).2; simpa using this
    subst hEq
    rcases kw with ⟨k1, v1⟩
    rcases v1 with b | _ | s | n <;>
      simp [encodeParamValue, pyStr] at hnn ⊢
  · intro k s hmem
    have hkeep : (k, PyVal.vstr s) ∈
        items.filter (fun kv => decide (kv.2 ≠ PyVal.vnone)) := by
      simp [List.mem_filter, hmem]
    simpa [encodeParams, encodeParamValue] using
      List.mem_map_of_mem (fun kv => (kv.1, encodeParamValue kv.2)) hkeep
  · intro k n hmem
    have hkeep : (k, PyVal.vint n) ∈
        items.filter (fun kv => decide (kv.2 ≠ PyVal.vnone)) := by
      simp [List.mem_filter, hmem]
    simpa [encodeParams, encodeParamValue] using
      List.mem_map_of_mem (fun kv => (kv.1, encodeParamValue kv.2)) hkeep

/-- C6 witness: `params = {"flag": False, "skip": None}` encodes to a dict
that contains `flag = "false"` and no `skip` entry. -/
theorem query_params_encoding_witness :
    ([(("flag"), PyVal.vbool false), (("skip"), PyVal.vnone)] ≠
      ([] : List (String × PyVal))) ∧
    ((("flag"), PyVal.vstr ("false")) ∈
      encodeParams [(("flag"), PyVal.vbool false), (("skip"), PyVal.vnone)]) ∧
    ((("skip"), PyVal.vnone) ∉
      encodeParams [(("flag"), PyVal.vbool false), (("skip"), PyVal.vnone)]) := by
  refine ⟨by decide, ?_, ?_⟩
  · have h := (query_params_encoding
      [(("flag"), PyVal.vbool false), (("skip"), PyVal.vnone)] (by decide)
        (by decide)).2.1 ("flag") false (by decide)
    simpa using h
  · exact (query_params_encoding
      [(("flag"), PyVal.vbool false), (("skip"), PyVal.vnone)] (by decide)
        (by decide)).2.2.1 ("skip") (by decide) PyVal.vnone

/-- C10: every truthy non-dict `params` value makes the shared prologue of
`_query` / `_query_stream` raise `AccQsureException` with message
"Query parameters must be a valid dictionary", so the request is never
issued; every falsy `params` value (None, empty dict, ...) skips the
validation and the request proceeds with `params` unchanged. -/
theorem query_params_validation (p : Params) :
    (p.truthy = true → (∀ items, p ≠ .pDict items) →
      prepare_query_params p = .exn ("Query parameters must be a valid dictionary")) ∧
    (p.truthy = false → prepare_query_params p = .send p) := by
  constructor
  · intro ht hnd
    rcases p with _ | items | items | s
    · simp [Params.truthy] at ht
    · exact absurd rfl (hnd items)
    · simp [prepare_query_params, ht]
    · simp [prepare_query_params, ht]
  · intro hf
    simp [prepare_query_params, hf]

/-- C10 witness: the string `"invalid"` as `params` raises the dictionary
validation error; `params = None` proceeds without validation. -/
theorem query_params_validation_witness :
    ((Params.pStr ("invalid")).truthy = true ∧
      prepare_query_params (.pStr ("invalid")) =
        .exn ("Query parameters must be a valid dictionary")) ∧
    ((Params.pNone).truthy = false ∧
      prepare_query_params .pNone = .send .pNone) :=
  ⟨⟨by decide, (query_params_validation (.pStr ("invalid"))).1 (by decide)
      (fun items h => Params.noConfusion h)⟩,
   ⟨by decide, (query_params_validation .pNone).2 (by decide)⟩⟩

/-- The `delta` object of a streamed chat chunk. -/
structure Delta where
  content : Option String
deriving DecidableEq

/-- One element of the `choices` array of a streamed event. -/
structure Choice where
  finish_reason : Option String
  delta : Option Delta
deriving DecidableEq

/-- A parsed stream event restricted to the fields `_query_stream` reads;
`none` models both an absent key and explicit JSON `null` (either way
`dict.get` returns Python `None`). -/
structure StreamEvent where
  generated_text : Option String
  choices : Option (List Choice)
deriving DecidableEq

/-- One line of the response stream after decoding, the `data:` strip and
`strip()`: blank, the `[DONE]` sentinel, a line that is not valid JSON, or
a parsed event. -/
inductive StreamLine
  | blank
  | done
  | badJson (raw : String)
  | event (e : StreamEvent)
deriving DecidableEq

/-- Python exceptions the stream loop can raise: `TypeError` (subscripting
`None`, `str + None`), `IndexError` (`[][0]`), `AttributeError` (`.get` on
`None`, `.text` on a dict), and a transport error raised by the response
iterator itself. -/
inductive PyExc
  | typeError
  | indexError
  | attributeError
  | connectionError
deriving DecidableEq

/-- How the body of the `try` block ends: `return generated_text` from
inside the loop, fall-through to `return answer` after the loop, or an
exception raised by a loop iteration. -/
inductive BodyResult
  | earlyReturn (s : String)
  | completed (answer : String)
  | excRaised (e : PyExc)
deriving DecidableEq

/-- Python truthiness of `dict.get(key)` for a string-valued key: `None`
and the empty string are falsy. -/
def truthyOpt : Option String → Bool
  | none => false
  | some s => !(s == (""))

/-- The `async for line in resp.content` loop of `_query_stream` (source
lines 221–254): skips blank lines, the `[DONE]` sentinel and lines that do
not parse as JSON; returns `generated_text` when that field is truthy;
skips events whose first choice has a truthy `finish_reason`; otherwise
appends the first choice's delta content to `answer`.  Also returns the
last value bound to the Python variable `response`, which the `except`
block reads. -/
def process_stream_lines (answer : String) (lastResponse : Option StreamEvent) :
    List StreamLine → Option StreamEvent × BodyResult
  | [] => (lastResponse, .completed answer)
  | .blank :: rest => process_stream_lines answer lastResponse rest
  | .done :: rest => process_stream_lines answer lastResponse rest
  | .badJson _ :: rest => process_stream_lines answer lastResponse rest
  | .event e :: rest =>
    if truthyOpt e.generated_text then
      (some e, .earlyReturn (e.generated_text.getD ("")))
    else
      match e.choices with
      | none => (some e, .excRaised .typeError)
      | some [] => (some e, .excRaised .indexError)
      | some (c :: _) =>
        if truthyOpt c.finish_reason then
          process_stream_lines answer (some e) rest
        else
          match c.delta with
          | none => (some e, .excRaised .attributeError)
          | some d =>
            match d.content with
            | none => (some e, .excRaised .typeError)
            | some s => process_stream_lines (answer ++ s) (some e) rest

/-- What propagates out of `_query_stream` past the `try/except` (source
lines 221–259). -/
inductive StreamOutcome
  | ok (answer : String)
  | raised (e : PyExc)
  | raisedNameError
deriving DecidableEq

/-- The `try/except` of `_query_stream`: on a normal end of stream the
accumulated answer is returned; `iterExc` models an exception raised by the
response iterator after the listed lines.  On any exception the `except`
block runs `data = await response.text()` where `response` is the parsed
JSON dict of the most recent event, not the HTTP response object: a dict
has no `text` attribute, so this raises `AttributeError` (or `NameError`
when no line was parsed and `response` is unbound), and the `raise e` line
re-raising the original exception is never reached. -/
def query_stream_run (lines : List StreamLine) (iterExc : Option PyExc) :
    StreamOutcome :=
  match process_stream_lines ("") none lines with
  | (_, .earlyReturn s) => .ok s
  | (lastResponse, .completed a) =>
    match iterExc with
    | none => .ok a
    | some _ =>
      match lastResponse with
      | none => .raisedNameError
      | some _ => .raised .attributeError
  | (lastResponse, .excRaised _) =>
    match lastResponse with
    | none => .raisedNameError
    | some _ => .raised .attributeError

/-- C7 counterexample: the event
`{"generated_text": "", "choices": [{"delta": {"content": "x"}}]}` carries
a `generated_text` field, yet `_query_stream` does not return that field:
`if response.get("generated_text"):` is a truthiness test, the empty string
falls through to choice processing, and the call returns the accumulated
delta `"x"` instead of `""`. -/
theorem query_stream_empty_generated_text_cex :
    query_stream_run
      [.event ⟨some (""), some [⟨none, some ⟨some ("x")⟩⟩]⟩] none = .ok ("x") ∧
    StreamOutcome.ok ("x") ≠ .ok ("") := by decide

/-- C7 (amended): blank lines and the `[DONE]` sentinel are skipped; lines
that fail to parse as JSON are skipped without aborting; the first parsed
event whose `generated_text` field is present and non-empty causes that
field to be returned immediately, discarding the rest of the stream; events
whose first choice carries a non-empty `finish_reason` are skipped;
otherwise the first choice's delta content is appended to the answer
buffer, returned when the stream ends — so the Hello / World / finish
events yield `"Hello World"` and a single `generated_text = "Complete"`
event yields `"Complete"` with later events discarded. -/
theorem query_stream_accumulation (answer : String)
    (lastResponse : Option StreamEvent) (rest : List StreamLine) :
    (process_stream_lines answer lastResponse (.blank :: rest) =
      process_stream_lines answer lastResponse rest) ∧
    (process_stream_lines answer lastResponse (.done :: rest) =
      process_stream_lines answer lastResponse rest) ∧
    (∀ raw, process_stream_lines answer lastResponse (.badJson raw :: rest) =
      process_stream_lines answer lastResponse rest) ∧
    (∀ e s, e.generated_text = some s → s ≠ ("") →
      process_stream_lines answer lastResponse (.event e :: rest) =
        (some e, .earlyReturn s)) ∧
    (∀ e c cs r, truthyOpt e.generated_text = false →
      e.choices = some (c :: cs) → c.finish_reason = some r → r ≠ ("") →
      process_stream_lines answer lastResponse (.event e :: rest) =
        process_stream_lines answer (some e) rest) ∧
    (∀ e c cs d s, truthyOpt e.generated_text = false →
      e.choices = some (c :: cs) → truthyOpt c.finish_reason = false →
      c.delta = some d → d.content = some s →
      process_stream_lines answer lastResponse (.event e :: rest) =
        process_stream_lines (answer ++ s) (some e) rest) ∧
    (process_stream_lines answer lastResponse [] =
      (lastResponse, .completed answer)) ∧
    (query_stream_run
      [.event ⟨none, some [⟨none, some ⟨some ("Hello")⟩⟩]⟩,
       .event ⟨none, some [⟨none, some ⟨some (" World")⟩⟩]⟩,
       .event ⟨none, some [⟨some ("stop"), none⟩]⟩] none = .ok ("Hello World")) ∧
    (query_stream_run
      [.event ⟨some ("Complete"), none⟩,
       .event ⟨none, none⟩] none = .ok ("Complete")) := by
  refine ⟨rfl, rfl, fun raw => rfl, ?_, ?_, ?_, rfl, by decide, by decide⟩
  · intro e s hgen hs
    have ht : truthyOpt (some s) = true := by simp [truthyOpt, hs]
    simp [process_stream_lines, hgen, ht]
  · intro e c cs r hgen hch hfin hr
    have ht : truthyOpt (some r) = true := by simp [truthyOpt, hr]
    simp [process_stream_lines, hgen, hch, hfin, ht]
  · intro e c cs d s hgen hch hfin hdel hcon
    simp [process_stream_lines, hgen, hch, hfin, hdel, hcon]

/-- C7 witness: a non-empty `generated_text` event returns that text
immediately even with a non-empty answer buffer. -/
theorem query_stream_accumulation_witness :
    ((⟨some ("Z"), none⟩ : StreamEvent).generated_text = some ("Z") ∧
      ("Z") ≠ ("")) ∧
    process_stream_lines ("A") none [.event ⟨some ("Z"), none⟩] =
      (some ⟨some ("Z"), none⟩, .earlyReturn ("Z")) :=
  ⟨⟨rfl, by decide⟩,
   (query_stream_accumulation ("A") none []).2.2.2.1
     ⟨some ("Z"), none⟩ ("Z") rfl (by decide)⟩

/-- C8 (code-bug evidence): whenever an exception `e` is raised while
iterating the stream — a transport error after a successfully parsed delta
event, or a `TypeError` from an event with no `choices` — the exception
that propagates out of `_query_stream` is the `AttributeError` raised by
`data = await response.text()` in the `except` block (`response` is the
parsed JSON dict, which has no `text` attribute), never `e` itself. -/
theorem query_stream_masked_exception :
    (process_stream_lines ("") none
      [.event ⟨none, some [⟨none, some ⟨some ("Hello")⟩⟩]⟩]).2 =
        .completed ("Hello") ∧
    query_stream_run
      [.event ⟨none, some [⟨none, some ⟨some ("Hello")⟩⟩]⟩]
      (some .connectionError) = .raised .attributeError ∧
    PyExc.attributeError ≠ PyExc.connectionError ∧
    (process_stream_lines ("") none [.event ⟨none, none⟩]).2 =
      .excRaised .typeError ∧
    query_stream_run [.event ⟨none, none⟩] none = .raised .attributeError ∧
    PyExc.attributeError ≠ PyExc.typeError := by decide

/-- Modelled from the spec: `accqsure/auth.py` is not among the sources
(only its tests are); the `Token` record follows spec §3 — organization id,
opaque bearer string, absolute Unix expiry timestamp in seconds, and the
API endpoint the token was minted for. -/
structure Token where
  organization_id : String
  access_token : String
  expires_at : ℤ
  api_endpoint : String
deriving DecidableEq

/-- Modelled from the spec: `is_token_valid` of the missing `auth.py`.  A
token is valid iff its `expires_at` is more than the fixed 60-second safety
buffer in the future; the `None` sentinel is always invalid (spec §3
invariant and §8: `token is not None and token.expires_at > now + 60`). -/
def is_token_valid (now : ℤ) (token : Option Token) : Bool :=
  match token with
  | none => false
  | some t => decide (t.expires_at > now + 60)

/-- Modelled from the spec: the I/O the Auth Coordinator can perform while
serving `get_token()` — reading the cache file, the network token exchange,
and writing the cache file (spec §4.5). -/
inductive AuthAction
  | readCache
  | exchange
  | writeCache
deriving DecidableEq

/-- Modelled from the spec: `get_new_token()` of the missing `auth.py`
(spec §4.5 step 3) — exchange the credential for `minted`, store it in
memory and persist it to the cache.  The returned token is also the new
in-memory token. -/
def get_new_token (minted : Token) : Token × List AuthAction :=
  (minted, [.exchange, .writeCache])

/-- Modelled from the spec: `Auth.get_token()` of the missing `auth.py`,
spec §4.5 evaluated in the stated order.  `mem` is the in-memory token
slot, `disk` the token parsed from the cache file (`none` for a missing or
corrupt cache), `minted` the token a fresh exchange would produce.  Returns
the token handed to the caller — which is also the new in-memory token —
and the trace of I/O actions performed. -/
def get_token (now : ℤ) (mem disk : Option Token) (minted : Token) :
    Token × List AuthAction :=
  match mem with
  | some t =>
    if is_token_valid now (some t) then (t, [])
    else
      if is_token_valid now disk then (disk.getD minted, [.readCache])
      else ((get_new_token minted).1, .readCache :: (get_new_token minted).2)
  | none =>
    if is_token_valid now disk then (disk.getD minted, [.readCache])
    else ((get_new_token minted).1, .readCache :: (get_new_token minted).2)

/-- C2: `is_token_valid t` is true iff `t` is not `None` and its
`expires_at` is strictly beyond `now` plus the 60-second buffer; a token
expiring inside the buffer or in the past is invalid, and `None` is
invalid. -/
theorem is_token_valid_spec (now : ℤ) (token : Option Token) :
    (is_token_valid now token = true ↔
      ∃ t, token = some t ∧ t.expires_at > now + 60) ∧
    (∀ t, token = some t → t.expires_at ≤ now + 60 →
      is_token_valid now token = false) ∧
    (is_token_valid now none = false) := by
  refine ⟨?_, ?_, rfl⟩
  · constructor
    · intro h
      rcases token with _ | t
      · simp [is_token_valid] at h
      · exact ⟨t, rfl, by simpa [is_token_valid] using h⟩
    · rintro ⟨t, rfl, ht⟩
      simp [is_token_valid, ht]
  · rintro t rfl hle
    simp [is_token_valid]
    omega

/-- C2 witness: at `now = 1000`, a token expiring at 1061 is valid, tokens
expiring at 1060 (buffer edge) and 900 (past) are not, and `None` is not. -/
theorem is_token_valid_spec_witness :
    (is_token_valid 1000
      (some ⟨("o"), ("a"), 1061, ("e")⟩) = true ↔
      ∃ t, (some (⟨("o"), ("a"), 1061, ("e")⟩ : Token)) = some t ∧
        t.expires_at > 1000 + 60) ∧
    ((⟨("o"), ("a"), 1060, ("e")⟩ : Token).expires_at ≤ 1000 + 60 ∧
      is_token_valid 1000 (some ⟨("o"), ("a"), 1060, ("e")⟩) = false) ∧
    (is_token_valid 1000 none = false) :=
  ⟨(is_token_valid_spec 1000 (some ⟨("o"), ("a"), 1061, ("e")⟩)).1,
   ⟨by decide,
    (is_token_valid_spec 1000 (some ⟨("o"), ("a"), 1060, ("e")⟩)).2.1
      ⟨("o"), ("a"), 1060, ("e")⟩ rfl (by decide)⟩,
   (is_token_valid_spec 1000 none).2.2⟩

/-- C1: `get_token()` returns a valid in-memory token with no I/O at all;
otherwise, when the token loaded from the cache is valid, it adopts and
returns it having performed only the cache read — no network exchange; only
when both are invalid does it mint via `get_new_token()`, returning the
fresh token with the exchange and the cache write in its trace; and the
exchange action never occurs while the in-memory token is valid. -/
theorem get_token_spec (now : ℤ) (mem disk : Option Token) (minted : Token) :
    (∀ t, mem = some t → is_token_valid now mem = true →
      get_token now mem disk minted = (t, [])) ∧
    (∀ c, is_token_valid now mem = false → disk = some c →
      is_token_valid now disk = true →
      get_token now mem disk minted = (c, [.readCache])) ∧
    (is_token_valid now mem = false → is_token_valid now disk = false →
      get_token now mem disk minted =
        (minted, [.readCache, .exchange, .writeCache])) ∧
    (is_token_valid now mem = true →
      AuthAction.exchange ∉ (get_token now mem disk minted).2) := by
  refine ⟨?_, ?_, ?_, ?_⟩
  · rintro t rfl hv
    simp [get_token, hv]
  · rintro c hinv rfl hv
    rcases mem with _ | t
    · simp [get_token, hv]
    · simp [get_token, hinv, hv]
  · intro hinv hdisk
    rcases mem with _ | t
    · simp [get_token, hdisk, get_new_token]
    · simp [get_token, hinv, hdisk, get_new_token]
  · intro hv
    rcases mem with _ | t
    · simp [is_token_valid] at hv
    · simp [get_token, hv]

/-- C1 witness: at `now = 1000` with a fresh in-memory token the call
returns it with an empty I/O trace, and in particular no exchange. -/
theorem get_token_spec_witness :
    (is_token_valid 1000 (some (⟨("o"), ("mem"), 5000, ("e")⟩ : Token)) = true) ∧
    get_token 1000 (some ⟨("o"), ("mem"), 5000, ("e")⟩)
      (some ⟨("o"), ("disk"), 5000, ("e")⟩) ⟨("o"), ("new"), 9000, ("e")⟩ =
      (⟨("o"), ("mem"), 5000, ("e")⟩, []) :=
  ⟨by decide,
   (get_token_spec 1000 (some ⟨("o"), ("mem"), 5000, ("e")⟩)
      (some ⟨("o"), ("disk"), 5000, ("e")⟩) ⟨("o"), ("new"), 9000, ("e")⟩).1
     ⟨("o"), ("mem"), 5000, ("e")⟩ rfl (by decide)⟩

end AccQsure
